import Mathlib

/-!
Shallow embedding of the semantic-resolution engine of `sql_to_ibis`
(`sql_to_ibis/parsing/transformers.py` and `sql_to_ibis/sql/sql_clause_objects.py`),
together with theorems settling the spec claims about it.

Python runtime values are modelled by the inductive `Obj` (one type, mirroring
Python's dynamic typing); Python numbers by `PyNum` (arbitrary-precision `Int`
for Python ints, exact rationals standing in for Python floats — the claims
about floats concern only the int/float kind and promotion, never rounding).
Methods that can raise return `Option`/`Except`.
-/

namespace SqlToIbis

/-- A Python number: `int` (arbitrary precision) or `float`
(modelled exactly by a rational; the claims depend only on the kind). -/
inductive PyNum where
  | int (n : Int)
  | float (q : Rat)
deriving DecidableEq, Repr

/-- Python `+` on numbers: int+int stays int, any float operand promotes. -/
def PyNum.add : PyNum → PyNum → PyNum
  | .int a, .int b => .int (a + b)
  | .int a, .float b => .float (a + b)
  | .float a, .int b => .float (a + b)
  | .float a, .float b => .float (a + b)

/-- Python `-` on numbers. -/
def PyNum.sub : PyNum → PyNum → PyNum
  | .int a, .int b => .int (a - b)
  | .int a, .float b => .float (a - b)
  | .float a, .int b => .float (a - b)
  | .float a, .float b => .float (a - b)

/-- Python `*` on numbers. -/
def PyNum.mul : PyNum → PyNum → PyNum
  | .int a, .int b => .int (a * b)
  | .int a, .float b => .float (a * b)
  | .float a, .int b => .float (a * b)
  | .float a, .float b => .float (a * b)

/-- The rational carried by a Python number. -/
def PyNum.toRat : PyNum → Rat
  | .int n => n
  | .float q => q

/-- Python true division `/`: always a float, raises `ZeroDivisionError`
(`none`) on a zero divisor — even `int / int` produces a float. -/
def PyNum.truediv (a b : PyNum) : Option PyNum :=
  if b.toRat = 0 then none else some (.float (a.toRat / b.toRat))

/-- A numeric literal token handed over by the lark grammar, already split by
whether its text contains a decimal point (Python `eval` of the token text
yields an `int` for plain digit strings and a `float` otherwise). -/
inductive NumToken where
  | intTok (n : Int)
  | floatTok (q : Rat)
deriving DecidableEq, Repr

/-- An argument of the arithmetic handlers: a lark `Token` or an already
evaluated number (the `assert isinstance(arg, (Token, float, int))`). -/
inductive NumArg where
  | token (t : NumToken)
  | lit (n : PyNum)
deriving DecidableEq, Repr

/-- `num_eval` (transformers.py:36): a `Token` (a `str` subclass) is passed to
`eval`, which parses its numeric text; a plain number is returned unchanged. -/
def num_eval : NumArg → PyNum
  | .token (.intTok n) => .int n
  | .token (.floatTok q) => .float q
  | .lit n => n

/-- `InternalTransformer.add` (transformers.py:199): folds two literal
arguments to one Python number immediately (`args` shorter than two raises,
modelled as `none`). -/
def add (args : List NumArg) : Option PyNum :=
  match args with
  | a1 :: a2 :: _ => some ((num_eval a1).add (num_eval a2))
  | _ => none

/-- `InternalTransformer.sub` (transformers.py:217). -/
def sub (args : List NumArg) : Option PyNum :=
  match args with
  | a1 :: a2 :: _ => some ((num_eval a1).sub (num_eval a2))
  | _ => none

/-- `InternalTransformer.mul` (transformers.py:181). -/
def mul (args : List NumArg) : Option PyNum :=
  match args with
  | a1 :: a2 :: _ => some ((num_eval a1).mul (num_eval a2))
  | _ => none

/-- `InternalTransformer.div` (transformers.py:235): Python `/`, true division
(float result; `ZeroDivisionError` modelled as `none`). -/
def div (args : List NumArg) : Option PyNum :=
  match args with
  | a1 :: a2 :: _ => (num_eval a1).truediv (num_eval a2)
  | _ => none

/-- A `preceding`/`following` bound of a row/range clause
(`Optional[Union[int, tuple]]`). -/
inductive RowBound where
  | int (n : Int)
  | tup (l : List Int)
deriving DecidableEq, Repr

/-- `RowRangeClause` (sql_clause_objects.py:7): on success only the two bounds
are stored — the class body sets `self.preceding` and `self.following` and
never retains `clause_type`. -/
structure RowRangeClause where
  preceding : Option RowBound
  following : Option RowBound
deriving DecidableEq, Repr

/-- The `_clause_types` class attribute of `RowRangeClause`. -/
def RowRangeClause.clause_types : List String := ["ROW", "RANGE"]

/-- `RowRangeClause.__init__` (sql_clause_objects.py:12): raises unless
`clause_type` is a member of `_clause_types`, then stores the bounds. -/
def RowRangeClause.init (clause_type : String) (preceding following : Option RowBound) :
    Except String RowRangeClause :=
  if clause_type ∈ RowRangeClause.clause_types then
    .ok { preceding := preceding, following := following }
  else
    .error "Type must be one of [ROW, RANGE]"

/-- A Python runtime object as it flows through the transformer: `pynone` is
Python `None`; `num`/`str` are raw Python scalars; every other constructor is
an ibis expression node built by the backend collaborator (`==`, `between`,
`isin`, aggregation reductions, window/ranking nodes, casts, and the ibis
case builder with its accumulated WHEN pairs, optional ELSE and `.end()`
flag). -/
inductive Obj where
  | pynone : Obj
  | num (n : PyNum) : Obj
  | str (s : String) : Obj
  | col (table name : String) : Obj
  | eq (a b : Obj) : Obj
  | ne (a b : Obj) : Obj
  | gt (a b : Obj) : Obj
  | ge (a b : Obj) : Obj
  | lt (a b : Obj) : Obj
  | le (a b : Obj) : Obj
  | between (x lo hi : Obj) : Obj
  | isin (x : Obj) (l : List Obj) : Obj
  | notin (x : Obj) (l : List Obj) : Obj
  | mean (x : Obj) : Obj
  | sum (x : Obj) : Obj
  | max (x : Obj) : Obj
  | min (x : Obj) : Obj
  | rankOf (x : Obj) : Obj
  | denseRankOf (x : Obj) : Obj
  | desc (x : Obj) : Obj
  | over (x : Obj) (order_by : List Obj) (group_by : List Obj) : Obj
  | cast (x : Obj) (totype : String) : Obj
  | caseBuilder (whens : List (Obj × Obj)) (els : Option Obj) (ended : Bool) : Obj

/-- `ibis.case()`: a fresh case builder. -/
def ibisCase : Obj := .caseBuilder [] none false

/-- The ibis case builder method `.when(c, v)`: appends one WHEN pair
(on a non-builder receiver the Python call raises; modelled as `pynone`). -/
def Obj.when : Obj → Obj → Obj → Obj
  | .caseBuilder ws e f, c, v => .caseBuilder (ws ++ [(c, v)]) e f
  | _, _, _ => .pynone

/-- The ibis case builder method `.else_(v)`: records the ELSE value. -/
def Obj.elseBranch : Obj → Obj → Obj
  | .caseBuilder ws _ f, v => .caseBuilder ws (some v) f
  | _, _ => .pynone

/-- The ibis case builder method `.end()`: finalizes the builder. -/
def Obj.endCase : Obj → Obj
  | .caseBuilder ws e _ => .caseBuilder ws e true
  | _ => .pynone

/-- The kind of SQL-literal wrapper class (`Number`, `String`, `Date`, or the
generic `Literal`) from `sql_to_ibis.sql_objects`. -/
inductive LitKind where
  | plain
  | number
  | stringK
  | dateK
deriving DecidableEq, Repr

/-- Modelled from the spec: the *Column* variant of the Value model
(`sql_to_ibis.sql_objects.Column`, whose module is not under `src/`): a name,
its owning table (filled in by Scope resolution), the concrete backend
reference to the column (`value`, `None` until resolved), an optional output
alias and an optional explicit type from an `AS TYPE` cast. -/
structure ColumnV where
  name : String
  table : Option String := none
  value : Obj := .pynone
  alias_ : Option String := none
  typename : Option String := none

/-- Modelled from the spec: the Value model of `sql_to_ibis.sql_objects`
(module not under `src/`): a typed *Literal* constant with an optional display
alias, a resolved *Column*, a composite *Expression*, an
*ExpressionWithPlan* (`ValueWithPlan`) that additionally carries a plan
fingerprint — `none` when its single-argument constructor, as invoked by every
call site in `transformers.py`, is given no fingerprint (matching the unused
`self._execution_plan = ""` default) — and an *Aggregate*. -/
inductive Value where
  | literal (kind : LitKind) (v : Obj) (alias_ : Option String) : Value
  | column (c : ColumnV) : Value
  | expr (v : Obj) (alias_ : Option String) : Value
  | valueWithPlan (v : Obj) (plan : Option String) : Value
  | aggregate (v : Obj) (alias_ : Option String) (typename : Option String) : Value

/-- The `.value` attribute of a Value: the raw constant of a literal, the
backend column reference of a resolved column, the backend form of a
composite. -/
def Value.val : Value → Obj
  | .literal _ v _ => v
  | .column c => c.value
  | .expr v _ => v
  | .valueWithPlan v _ => v
  | .aggregate v _ _ => v

/-- Modelled from the spec: `Value.get_value` of `sql_to_ibis.sql_objects`
(module not under `src/`) — "If the value is a literal return it's value"
(docstring of `get_wrapper_value`, transformers.py:48): a literal is unwrapped
to its raw value; every other variant yields its backend form. -/
def Value.get_value : Value → Obj
  | .literal _ v _ => v
  | .column c => c.value
  | .expr v _ => v
  | .valueWithPlan v _ => v
  | .aggregate v _ _ => v

/-- The plan fingerprint carried by a Value, when it is an
ExpressionWithPlan (`none` otherwise and when none was attached). -/
def Value.planOf : Value → Option String
  | .valueWithPlan _ p => p
  | _ => none

/-- Rendering of the simple runtime objects used in plan fingerprints. -/
def Obj.render : Obj → String
  | .num (.int n) => toString n
  | .str s => s
  | .col _ name => name
  | _ => ""

/-- Modelled from the spec: `Value.get_plan_representation` of
`sql_to_ibis.sql_objects` (module not under `src/`) — the canonical
fingerprint string of a Value: a literal renders as itself, a column as its
name, and an ExpressionWithPlan returns the fingerprint it carries (the empty
string when none was attached, matching `self._execution_plan = ""`). -/
def Value.get_plan_representation : Value → String
  | .literal _ v _ => v.render
  | .column c => c.name
  | .expr v _ => v.render
  | .valueWithPlan _ p => p.getD ""
  | .aggregate v _ _ => v.render

/-- Modelled from the spec: `Value.__eq__` and the other rich-comparison
operators of `sql_to_ibis.sql_objects` (module not under `src/`) "build the
backend predicate" from the operands' backend values. -/
def Value.opEq (a b : Value) : Obj := .eq a.val b.val

/-- Modelled from the spec: `Value.__ne__`. -/
def Value.opNe (a b : Value) : Obj := .ne a.val b.val

/-- Modelled from the spec: `Value.__gt__`. -/
def Value.opGt (a b : Value) : Obj := .gt a.val b.val

/-- Modelled from the spec: `Value.__ge__`. -/
def Value.opGe (a b : Value) : Obj := .ge a.val b.val

/-- Modelled from the spec: `Value.__lt__`. -/
def Value.opLt (a b : Value) : Obj := .lt a.val b.val

/-- Modelled from the spec: `Value.__le__`. -/
def Value.opLe (a b : Value) : Obj := .le a.val b.val

/-- `InternalTransformer.create_execution_plan_expression`
(transformers.py:330): the plan fingerprint for a binary relationship —
the left fingerprint, the relationship symbol, the right fingerprint,
concatenated. -/
def create_execution_plan_expression (expression1 expression2 : Value)
    (relationship : String) : String :=
  expression1.get_plan_representation ++ relationship
    ++ expression2.get_plan_representation

/-- `InternalTransformer.equals` (transformers.py:346): wraps the backend
equality predicate in a `ValueWithPlan`; the single-argument construction
attaches no plan fingerprint (fewer than two expressions raises `IndexError`,
modelled as `none`). -/
def equals (expressions : List Value) : Option Value :=
  match expressions with
  | a :: b :: _ => some (.valueWithPlan (a.opEq b) none)
  | _ => none

/-- `InternalTransformer.not_equals` (transformers.py:354). -/
def not_equals (expressions : List Value) : Option Value :=
  match expressions with
  | a :: b :: _ => some (.valueWithPlan (a.opNe b) none)
  | _ => none

/-- `InternalTransformer.greater_than` (transformers.py:362). -/
def greater_than (expressions : List Value) : Option Value :=
  match expressions with
  | a :: b :: _ => some (.valueWithPlan (a.opGt b) none)
  | _ => none

/-- `InternalTransformer.greater_than_or_equal` (transformers.py:370). -/
def greater_than_or_equal (expressions : List Value) : Option Value :=
  match expressions with
  | a :: b :: _ => some (.valueWithPlan (a.opGe b) none)
  | _ => none

/-- `InternalTransformer.less_than` (transformers.py:378). -/
def less_than (expressions : List Value) : Option Value :=
  match expressions with
  | a :: b :: _ => some (.valueWithPlan (a.opLt b) none)
  | _ => none

/-- `InternalTransformer.less_than_or_equal` (transformers.py:386). -/
def less_than_or_equal (expressions : List Value) : Option Value :=
  match expressions with
  | a :: b :: _ => some (.valueWithPlan (a.opLe b) none)
  | _ => none

/-- `InternalTransformer.between` (transformers.py:394):
`main.value.between(lo.value, hi.value)` wrapped in a `ValueWithPlan` (again
with no fingerprint attached). -/
def between (expressions : List Value) : Option Value :=
  match expressions with
  | m :: lo :: hi :: _ =>
      some (.valueWithPlan (.between m.val lo.val hi.val) none)
  | _ => none

/-- `InternalTransformer._get_expression_values` (transformers.py:408):
unwraps each expression with `get_value`. -/
def _get_expression_values (expressions : List Value) : List Obj :=
  expressions.map Value.get_value

/-- `InternalTransformer.in_expr` (transformers.py:411):
`expressions[0].value.isin(in_list)` over the unwrapped tail. -/
def in_expr (expressions : List Value) : Option Value :=
  match expressions with
  | x :: rest =>
      some (.valueWithPlan (.isin x.val (_get_expression_values rest)) none)
  | _ => none

/-- `InternalTransformer.not_in_expr` (transformers.py:420):
`expressions[0].value.notin(not_in_list)` over the unwrapped tail. -/
def not_in_expr (expressions : List Value) : Option Value :=
  match expressions with
  | x :: rest =>
      some (.valueWithPlan (.notin x.val (_get_expression_values rest)) none)
  | _ => none

/-- One entry of the list handed to `case_expression`: a `(condition, result)`
tuple produced by `when_then` (transformers.py:505), or the bare ELSE value. -/
inductive WhenItem where
  | pair (c v : Value) : WhenItem
  | other (v : Value) : WhenItem

/-- One step of the `case_expression` loop body (transformers.py:522):
a tuple folds in `.when(cond, value)`; anything else is the ELSE value,
folded in as `.else_(value).end()`. -/
def caseStep (acc : Obj) : WhenItem → Obj
  | .pair c v => acc.when c.get_value v.get_value
  | .other v => (acc.elseBranch v.get_value).endCase

/-- `InternalTransformer.case_expression` (transformers.py:513): folds the
WHEN/THEN pairs (and the optional ELSE) into `ibis.case()` in source order and
wraps the result in an `Expression`. -/
def case_expression (when_expressions : List WhenItem) : Value :=
  .expr (when_expressions.foldl caseStep ibisCase) none

/-- A token of a window specification, as produced by `order_asc`
(transformers.py:544, flag `True`), `order_desc` (transformers.py:552, flag
`False`) and `partition_by` (transformers.py:561). -/
inductive RankToken where
  | order (c : ColumnV) (ascending : Bool) : RankToken
  | partition (c : ColumnV) : RankToken

/-- Whether a window-specification token is a PARTITION BY entry. -/
def RankToken.isPartition : RankToken → Bool
  | .order _ _ => false
  | .partition _ => true

/-- The loop body of `get_rank_orders_and_partitions` (transformers.py:580):
an order token records its column value as the ranking target if none is set
yet (before any descending wrapper), wraps `ibis.desc` around entries whose
ascending flag is `False`, and appends to the order list; a partition token
appends its column value to the partition list. -/
def rankStep (acc : List Obj × List Obj × Option Obj) (t : RankToken) :
    List Obj × List Obj × Option Obj :=
  match t with
  | .order c ascending =>
      let ibis_value := c.value
      let rank_column := match acc.2.2 with
        | none => some ibis_value
        | some r => some r
      let ibis_value := if ascending then ibis_value else .desc ibis_value
      (acc.1 ++ [ibis_value], acc.2.1, rank_column)
  | .partition c => (acc.1, acc.2.1 ++ [c.value], acc.2.2)

/-- `InternalTransformer.get_rank_orders_and_partitions`
(transformers.py:570): walks `tokens[0]` (an empty argument list raises
`IndexError`, modelled as `none`) accumulating the order list, the partition
list and the ranking target. -/
def get_rank_orders_and_partitions (tokens : List (List RankToken)) :
    Option (List Obj × List Obj × Option Obj) :=
  match tokens with
  | expressions :: _ => some (expressions.foldl rankStep ([], [], none))
  | [] => none

/-- `InternalTransformer.apply_rank_function` (transformers.py:594): asserts
the function name is `rank` or `dense_rank` (`none` models the assertion
failure) and applies it to the first column. -/
def apply_rank_function (first_column : Obj) (rank_function : String) :
    Option Obj :=
  if rank_function = "rank" then some (.rankOf first_column)
  else if rank_function = "dense_rank" then some (.denseRankOf first_column)
  else none

/-- `InternalTransformer.rank` (transformers.py:601): applies the ranking
function to the ranking target and builds
`ibis.window(order_by=orders, group_by=partitions)` around it (a missing
ranking target makes the Python `.over` call raise, modelled as `none`). -/
def rank (tokens : List (List RankToken)) (rank_function : String) :
    Option Value :=
  match get_rank_orders_and_partitions tokens with
  | some (orders, partitions, some first_column) =>
      (apply_rank_function first_column rank_function).map fun r =>
        .expr (.over r orders partitions) none
  | _ => none

/-- `InternalTransformer.rank_expression` (transformers.py:609). -/
def rank_expression (tokens : List (List RankToken)) : Option Value :=
  rank tokens "rank"

/-- `InternalTransformer.dense_rank_expression` (transformers.py:617). -/
def dense_rank_expression (tokens : List (List RankToken)) : Option Value :=
  rank tokens "dense_rank"

/-- Modelled from the spec: the dialect alias classes of
`sql_to_ibis.parsing.aggregation_aliases` (module not under `src/`): each
function name belongs to exactly one of the avg-like / sum-like / max-like /
min-like classes. -/
def AVG_AGGREGATIONS : List String := ["avg", "mean", "average"]

/-- Modelled from the spec: sum-like aggregation aliases. -/
def SUM_AGGREGATIONS : List String := ["sum"]

/-- Modelled from the spec: max-like aggregation aliases. -/
def MAX_AGGREGATIONS : List String := ["max", "maximum"]

/-- Modelled from the spec: min-like aggregation aliases. -/
def MIN_AGGREGATIONS : List String := ["min", "minimum"]

/-- Modelled from the spec: the numeric-only aggregation aliases —
the sum-like and avg-like classes together. -/
def NUMERIC_AGGREGATIONS : List String := AVG_AGGREGATIONS ++ SUM_AGGREGATIONS

/-- An ibis column handle as seen by `apply_ibis_aggregation`: its backend
reference, the display of its `.type()`, and whether the object is an
instance of `NumericColumn`. -/
structure IbisCol where
  ref : Obj
  coltype : String
  numeric : Bool

/-- An error raised by `apply_ibis_aggregation`: the bare
`assert isinstance(ibis_column, NumericColumn)` failure (an `AssertionError`
carrying no message), or the final `Exception` with its message. -/
inductive AggError where
  | assertionError : AggError
  | notImplemented (msg : String) : AggError
deriving DecidableEq, Repr

/-- The message carried by an aggregation error (a bare `AssertionError`
carries none). -/
def AggError.message : AggError → String
  | .assertionError => ""
  | .notImplemented m => m

/-- Whether `ks` occurs at the start of `ms`. -/
def startsWithL : List Char → List Char → Bool
  | _, [] => true
  | [], _ :: _ => false
  | a :: ms, b :: ks => a = b && startsWithL ms ks

/-- Whether `ks` occurs anywhere inside `ms`. -/
def containsSub : List Char → List Char → Bool
  | [], ks => ks.isEmpty
  | m :: ms, ks => startsWithL (m :: ms) ks || containsSub ms ks

/-- Whether the message `msg` mentions `key` as a substring. -/
def mentions (msg key : String) : Bool := containsSub msg.toList key.toList

/-- `TransformerBaseClass.apply_ibis_aggregation` (transformers.py:120):
numeric-only classes are checked first — inside that branch a bare `assert`
requires a `NumericColumn`, then avg-like maps to `.mean()` and sum-like to
`.sum()`; outside it max-like maps to `.max()` and min-like to `.min()`;
anything else raises `Aggregation ... not implemented for column of type ...`. -/
def apply_ibis_aggregation (ibis_column : IbisCol) (aggregation : String) :
    Except AggError Obj :=
  if aggregation ∈ NUMERIC_AGGREGATIONS then
    if !ibis_column.numeric then .error .assertionError
    else if aggregation ∈ AVG_AGGREGATIONS then .ok (.mean ibis_column.ref)
    else if aggregation ∈ SUM_AGGREGATIONS then .ok (.sum ibis_column.ref)
    else if aggregation ∈ MAX_AGGREGATIONS then .ok (.max ibis_column.ref)
    else if aggregation ∈ MIN_AGGREGATIONS then .ok (.min ibis_column.ref)
    else .error (.notImplemented ("Aggregation " ++ aggregation
      ++ " not implemented for column of type " ++ ibis_column.coltype))
  else if aggregation ∈ MAX_AGGREGATIONS then .ok (.max ibis_column.ref)
  else if aggregation ∈ MIN_AGGREGATIONS then .ok (.min ibis_column.ref)
  else .error (.notImplemented ("Aggregation " ++ aggregation
    ++ " not implemented for column of type " ++ ibis_column.coltype))

/-- Modelled from the spec: `to_ibis_type` of
`sql_to_ibis.conversions.conversions` (module not under `src/`): the fixed
lookup table from SQL type keywords to canonical backend types
(`smallint` to int16, `bigint` to int64, `float` to float64, `int` to int32,
`varchar`/`string`/`object`/`category` to string, `datetime64`/`timestamp` to
timestamp); an unrecognized name fails with a type-resolution error. -/
def to_ibis_type (typename : String) : Option String :=
  if typename = "object" ∨ typename = "varchar" ∨ typename = "string"
      ∨ typename = "category" then some "string"
  else if typename = "smallint" then some "int16"
  else if typename = "int" then some "int32"
  else if typename = "bigint" ∨ typename = "int64" then some "int64"
  else if typename = "float" ∨ typename = "float64" then some "float64"
  else if typename = "datetime64" ∨ typename = "timestamp" then some "timestamp"
  else if typename = "bool" then some "boolean"
  else if typename = "date" then some "date"
  else if typename = "time" then some "time"
  else if typename = "int16" ∨ typename = "int32" then some typename
  else none

/-- Modelled from the spec: `TYPE_TO_SQL_TYPE` of
`sql_to_ibis.conversions.conversions` (module not under `src/`): the map from
a type keyword to the SQL-literal wrapper class (`Number`/`String`/`Date`). -/
def TYPE_TO_SQL_TYPE (typename : String) : Option LitKind :=
  if typename = "object" ∨ typename = "varchar" ∨ typename = "string"
      ∨ typename = "category" then some .stringK
  else if typename = "smallint" ∨ typename = "int" ∨ typename = "bigint"
      ∨ typename = "int16" ∨ typename = "int32" ∨ typename = "int64"
      ∨ typename = "float" ∨ typename = "float64" then some .number
  else if typename = "datetime64" ∨ typename = "timestamp" ∨ typename = "date"
      ∨ typename = "time" then some .dateK
  else if typename = "bool" then some .plain
  else none

/-- Modelled from the spec: `Column.set_type` of `sql_to_ibis.sql_objects`
(module not under `src/`): mutates only the declared output type of the
column. -/
def ColumnV.set_type (c : ColumnV) (typename : String) : ColumnV :=
  { c with typename := some typename }

/-- `InternalTransformer.as_type` (transformers.py:658): converts the type
token with `to_ibis_type` (an unknown keyword raises, modelled as `none`),
sets it on the column with `set_type`, and returns the same column. -/
def as_type (column : ColumnV) (typename : String) : Option ColumnV :=
  (to_ibis_type typename).map fun t => column.set_type t

/-- `InternalTransformer.literal_cast` (transformers.py:669): looks up the
SQL-literal wrapper class for the given type, casts the wrapped backend value,
and returns a brand-new typed literal Value. -/
def literal_cast (value_wrapper : Value) (given_type : String) : Option Value := do
  let new_type ← TYPE_TO_SQL_TYPE given_type
  let ibis_type ← to_ibis_type given_type
  pure (.literal new_type (.cast value_wrapper.val ibis_type) none)

/-- An entry of the catalog's column-to-table map: the single table owning the
column, or the `AmbiguousColumn` marker recording all tables carrying the
name (`sql_to_ibis.sql_objects.AmbiguousColumn`). -/
inductive TableRef where
  | tbl (name : String) : TableRef
  | amb (tables : List String) : TableRef
deriving DecidableEq, Repr

/-- Python dict insertion on an association list: replaces an existing
binding in place, otherwise appends. -/
def dictInsert (m : List (String × TableRef)) (k : String) (v : TableRef) :
    List (String × TableRef) :=
  match m with
  | [] => [(k, v)]
  | (k₁, v₁) :: rest =>
      if k₁ = k then (k, v) :: rest else (k₁, v₁) :: dictInsert rest k v

/-- The scope-restriction loop of `InternalTransformer.__init__`
(transformers.py:155): for each catalog column, an `AmbiguousColumn` entry is
replaced by `self.tables[0]` whenever that first table carries the name
(silently discarding the marker); a plain table entry is kept when the table
is in scope (the membership test `table in self.tables` is false for an
`AmbiguousColumn` against a list of names); all other entries are dropped. -/
def initScope (tables : List String)
    (column_to_dataframe_name : List (String × TableRef)) :
    List (String × TableRef) :=
  column_to_dataframe_name.foldl
    (fun acc kv =>
      match kv with
      | (column, .amb ts) =>
          match tables.head? with
          | some table_name =>
              if table_name ∈ ts then dictInsert acc column (.tbl table_name)
              else acc
          | none => acc
      | (column, .tbl t) =>
          if t ∈ tables then dictInsert acc column (.tbl t) else acc)
    []

/-- An error raised during column resolution: a Python `KeyError` from a map
miss, or the explicit `Ambiguous column reference` exception. -/
inductive ResolveError where
  | keyError : ResolveError
  | ambiguousReference (name : String) : ResolveError
deriving DecidableEq, Repr

/-- The maps a transformer resolves against: the column-to-table scope map,
the table-name-to-handle map (`dataframe_map`), and per table the
lower-cased-name to original-case-name map (`column_name_map`). -/
structure ScopeMaps where
  column_to_dataframe_name : List (String × TableRef)
  dataframe_map : List (String × String)
  column_name_map : List (String × List (String × String))

/-- `TransformerBaseClass.get_table` (transformers.py:80) restricted to plain
table names: looks the handle up in `dataframe_map` (a `KeyError` on a miss). -/
def get_table (dataframe_map : List (String × String)) (frame_name : String) :
    Option String :=
  List.lookup frame_name dataframe_map

/-- Python `str.lower`, modelled character-wise (kernel-computable, unlike
`String.toLower`). -/
def pyLower (s : String) : String := ⟨s.data.map Char.toLower⟩

/-- `TransformerBaseClass.set_column_value` (transformers.py:94): `*` is left
untouched; otherwise the scope map is consulted at the lower-cased name, an
`AmbiguousColumn` entry raises `Ambiguous column reference`, and a resolved
table yields the backend column handle at the original-case name recorded in
`column_name_map`, storing it with the owning table on the column. -/
def set_column_value (maps : ScopeMaps) (column : ColumnV) :
    Except ResolveError ColumnV :=
  if column.name = "*" then .ok column
  else
    match List.lookup (pyLower column.name) maps.column_to_dataframe_name with
    | none => .error .keyError
    | some (.amb _) => .error (.ambiguousReference column.name)
    | some (.tbl dataframe_name) =>
        match get_table maps.dataframe_map dataframe_name with
        | none => .error .keyError
        | some dataframe =>
            match List.lookup dataframe_name maps.column_name_map with
            | none => .error .keyError
            | some table_columns =>
                match List.lookup (pyLower column.name) table_columns with
                | none => .error .keyError
                | some column_true_name =>
                    .ok { column with
                          value := .col dataframe column_true_name,
                          table := some dataframe_name }

/-- `TransformerBaseClass.column_name` (transformers.py:109): joins the name
parts, builds a fresh `Column` and resolves it with `set_column_value`. -/
def column_name (maps : ScopeMaps) (name_list_format : List String) :
    Except ResolveError ColumnV :=
  set_column_value maps { name := String.join name_list_format }

/-- `InternalTransformer.sql_aggregation` (transformers.py:172): dispatches
the lower-cased aggregation token on the column's backend value and tags the
result with the column's alias and typename. -/
def sql_aggregation (aggregation : String) (column_ref : IbisCol)
    (al typename : Option String) : Except AggError Value :=
  (apply_ibis_aggregation column_ref aggregation.toLower).map
    fun v => .aggregate v al typename

/-- Evaluation of a backend predicate over raw numeric operands, modelling the
external ibis semantics at the interface: `between` is the inclusive range
check (both ends included). -/
def evalNum : Obj → Option Rat
  | .num n => some n.toRat
  | _ => none

/-- Semantics of the backend `between` node on numeric literals:
an inclusive range check. -/
def evalBool : Obj → Option Bool
  | .between x lo hi => do
      let a ← evalNum x
      let l ← evalNum lo
      let h ← evalNum hi
      pure (decide (l ≤ a ∧ a ≤ h))
  | _ => none

/-! ## Theorems settling the claims -/

/-- **C10**: constructing a `RowRangeClause` succeeds if and only if
`clause_type` is exactly `"ROW"` or `"RANGE"` (any other string raises before
any field is set); on success the object stores only the `preceding` and
`following` bounds — the validated clause type is not retained, so the two
admissible clause types construct identical objects. -/
theorem rowRangeClause_init_spec (t : String) (p f : Option RowBound) :
    ((∃ r, RowRangeClause.init t p f = .ok r) ↔ (t = "ROW" ∨ t = "RANGE")) ∧
    ((t = "ROW" ∨ t = "RANGE") →
      RowRangeClause.init t p f = .ok { preceding := p, following := f }) ∧
    RowRangeClause.init "ROW" p f = RowRangeClause.init "RANGE" p f := by
  have hmem : t ∈ RowRangeClause.clause_types ↔ (t = "ROW" ∨ t = "RANGE") := by
    simp [RowRangeClause.clause_types]
  refine ⟨⟨?_, ?_⟩, ?_, rfl⟩
  · rintro ⟨r, hr⟩
    rw [RowRangeClause.init] at hr
    by_cases hm : t ∈ RowRangeClause.clause_types
    · exact hmem.mp hm
    · simp [hm] at hr
  · intro h
    exact ⟨_, by rw [RowRangeClause.init, if_pos (hmem.mpr h)]⟩
  · intro h
    rw [RowRangeClause.init, if_pos (hmem.mpr h)]

/-- Witness for **C10** at concrete inputs: `"ROW"` succeeds and stores the
two bounds. -/
theorem rowRangeClause_init_spec_witness :
    (∃ r, RowRangeClause.init "ROW" (some (.int 1)) none = .ok r) ∧
    RowRangeClause.init "RANGE" (some (.int 1)) none
      = .ok { preceding := some (.int 1), following := none } :=
  ⟨(rowRangeClause_init_spec "ROW" (some (.int 1)) none).1.mpr (Or.inl rfl),
   (rowRangeClause_init_spec "RANGE" (some (.int 1)) none).2.1 (Or.inr rfl)⟩

/-- **C3**: arithmetic between two literal tokens is folded immediately to a
single Python number (the handlers return a plain number, never a deferred
expression), and division of two literals is true division — a float result
even when both operands are integer literal tokens. -/
theorem literal_arithmetic_folds (a b : NumArg) (m n : Int) :
    add [a, b] = some ((num_eval a).add (num_eval b)) ∧
    sub [a, b] = some ((num_eval a).sub (num_eval b)) ∧
    mul [a, b] = some ((num_eval a).mul (num_eval b)) ∧
    add [NumArg.token (.intTok m), NumArg.token (.intTok n)]
      = some (.int (m + n)) ∧
    sub [NumArg.token (.intTok m), NumArg.token (.intTok n)]
      = some (.int (m - n)) ∧
    mul [NumArg.token (.intTok m), NumArg.token (.intTok n)]
      = some (.int (m * n)) ∧
    ((num_eval b).toRat ≠ 0 →
      div [a, b] = some (.float ((num_eval a).toRat / (num_eval b).toRat))) ∧
    (n ≠ 0 →
      div [NumArg.token (.intTok m), NumArg.token (.intTok n)]
        = some (.float ((m : Rat) / (n : Rat)))) := by
  refine ⟨rfl, rfl, rfl, rfl, rfl, rfl, ?_, ?_⟩
  · intro h
    simp [div, PyNum.truediv, h]
  · intro h
    have h2 : ((num_eval (NumArg.token (.intTok n))).toRat) ≠ 0 := by
      simpa [num_eval, PyNum.toRat] using Int.cast_ne_zero.mpr h
    simp [div, PyNum.truediv, h2, num_eval, PyNum.toRat]
    exact h

/-- Witness for **C3** at a concrete input: the integer literal tokens 7 and 2
divide to the float 7/2 (not an integer). -/
theorem literal_arithmetic_folds_witness :
    (2 : Int) ≠ 0 ∧
    div [NumArg.token (.intTok 7), NumArg.token (.intTok 2)]
      = some (.float ((7 : Rat) / (2 : Rat))) :=
  ⟨by decide,
   (literal_arithmetic_folds (.token (.intTok 7)) (.token (.intTok 2)) 7 2).2.2.2.2.2.2.2
     (by decide)⟩

/-- A resolved column operand used in the comparison counterexample. -/
def c1Left : Value := .column { name := "a", table := some "t", value := .col "t" "a" }

/-- A numeric literal operand used in the comparison counterexample. -/
def c1Right : Value := .literal .number (.num (.int 3)) none

/-- **C1** counterexample: resolving the comparison `a = 3` yields a
`ValueWithPlan` that carries *no* plan fingerprint at all (the plan component
is `none`), although the operands have the fingerprints `"a"` and `"3"` and
`create_execution_plan_expression` would have concatenated them around the
operator symbol — the comparison handlers never invoke it. -/
theorem comparison_plan_fingerprint_counterexample :
    (equals [c1Left, c1Right]).map Value.planOf = some none ∧
    create_execution_plan_expression c1Left c1Right "==" = "a==3" := by
  exact ⟨rfl, rfl⟩

/-- **C1** (amended): every comparison handler (`= != > >= < <=`, `BETWEEN`,
`IN`, `NOT IN`) resolves to a `ValueWithPlan` wrapping the backend predicate,
but with no plan fingerprint attached: the single-argument `ValueWithPlan`
construction receives only the combined predicate, and
`create_execution_plan_expression` — which does compute the concatenation of
the left fingerprint, the relationship symbol and the right fingerprint — is
never invoked by any comparison handler. -/
theorem comparison_builds_valueWithPlan (a b m lo hi x : Value)
    (rest : List Value) (r : String) :
    equals [a, b] = some (.valueWithPlan (.eq a.val b.val) none) ∧
    not_equals [a, b] = some (.valueWithPlan (.ne a.val b.val) none) ∧
    greater_than [a, b] = some (.valueWithPlan (.gt a.val b.val) none) ∧
    greater_than_or_equal [a, b] = some (.valueWithPlan (.ge a.val b.val) none) ∧
    less_than [a, b] = some (.valueWithPlan (.lt a.val b.val) none) ∧
    less_than_or_equal [a, b] = some (.valueWithPlan (.le a.val b.val) none) ∧
    between [m, lo, hi]
      = some (.valueWithPlan (.between m.val lo.val hi.val) none) ∧
    in_expr (x :: rest)
      = some (.valueWithPlan (.isin x.val (rest.map Value.get_value)) none) ∧
    not_in_expr (x :: rest)
      = some (.valueWithPlan (.notin x.val (rest.map Value.get_value)) none) ∧
    create_execution_plan_expression a b r
      = a.get_plan_representation ++ r ++ b.get_plan_representation := by
  exact ⟨rfl, rfl, rfl, rfl, rfl, rfl, rfl, rfl, rfl, rfl⟩

/-- The non-numeric (string-typed) ibis column of the aggregation
counterexample. -/
def c4Col : IbisCol := { ref := .col "t" "description", coltype := "string", numeric := false }

/-- **C4** counterexample: applying the sum-like aggregation `sum` to a
non-numeric column named `description` of type `string` fails with the bare
`AssertionError` of `assert isinstance(ibis_column, NumericColumn)` — an
error carrying no message, which therefore names neither the offending column
nor its type. -/
theorem aggregation_type_error_counterexample :
    apply_ibis_aggregation c4Col "sum" = .error .assertionError ∧
    AggError.message .assertionError = "" ∧
    mentions (AggError.message .assertionError) "description" = false ∧
    mentions (AggError.message .assertionError) "string" = false := by
  exact ⟨rfl, rfl, rfl, rfl⟩

/-- **C4** (amended): aggregate dispatch checks the numeric-only classes
first; a sum-like or avg-like aggregation on a non-numeric column fails with
a bare assertion error that carries no message (naming neither the column nor
its type); avg-like maps to `.mean()`, sum-like to `.sum()`, max-like to
`.max()`, min-like to `.min()`; a name in no class fails with
`Aggregation <name> not implemented for column of type <type>`. -/
theorem aggregation_dispatch_spec (c : IbisCol) (aggregation : String) :
    (aggregation ∈ NUMERIC_AGGREGATIONS → c.numeric = false →
      apply_ibis_aggregation c aggregation = .error .assertionError) ∧
    (aggregation ∈ AVG_AGGREGATIONS → c.numeric = true →
      apply_ibis_aggregation c aggregation = .ok (.mean c.ref)) ∧
    (aggregation ∉ AVG_AGGREGATIONS → aggregation ∈ SUM_AGGREGATIONS →
      c.numeric = true →
      apply_ibis_aggregation c aggregation = .ok (.sum c.ref)) ∧
    (aggregation ∉ NUMERIC_AGGREGATIONS → aggregation ∈ MAX_AGGREGATIONS →
      apply_ibis_aggregation c aggregation = .ok (.max c.ref)) ∧
    (aggregation ∉ NUMERIC_AGGREGATIONS → aggregation ∉ MAX_AGGREGATIONS →
      aggregation ∈ MIN_AGGREGATIONS →
      apply_ibis_aggregation c aggregation = .ok (.min c.ref)) ∧
    (aggregation ∉ NUMERIC_AGGREGATIONS → aggregation ∉ MAX_AGGREGATIONS →
      aggregation ∉ MIN_AGGREGATIONS →
      apply_ibis_aggregation c aggregation = .error (.notImplemented
        ("Aggregation " ++ aggregation ++ " not implemented for column of type "
          ++ c.coltype))) := by
  refine ⟨?_, ?_, ?_, ?_, ?_, ?_⟩
  · intro hn hb
    simp [apply_ibis_aggregation, hn, hb]
  · intro ha hb
    have hn : aggregation ∈ NUMERIC_AGGREGATIONS := by
      simp [NUMERIC_AGGREGATIONS]
      exact Or.inl ha
    simp [apply_ibis_aggregation, hn, ha, hb]
  · intro ha hs hb
    have hn : aggregation ∈ NUMERIC_AGGREGATIONS := by
      simp [NUMERIC_AGGREGATIONS]
      exact Or.inr hs
    simp [apply_ibis_aggregation, hn, ha, hs, hb]
  · intro hn hx
    simp [apply_ibis_aggregation, hn, hx]
  · intro hn hx hi
    simp [apply_ibis_aggregation, hn, hx, hi]
  · intro hn hx hi
    simp [apply_ibis_aggregation, hn, hx, hi]

/-- Witness for **C4** (amended) at concrete inputs: `avg` on a numeric
column reduces to `.mean()`, and the unknown name `potato` fails with the
`not implemented` message naming the column type. -/
theorem aggregation_dispatch_spec_witness :
    apply_ibis_aggregation { ref := .col "t" "temp", coltype := "float64", numeric := true } "avg"
      = .ok (.mean (.col "t" "temp")) ∧
    apply_ibis_aggregation { ref := .col "t" "temp", coltype := "float64", numeric := true } "potato"
      = .error (.notImplemented
          "Aggregation potato not implemented for column of type float64") :=
  ⟨(aggregation_dispatch_spec _ "avg").2.1 (by decide) rfl,
   (aggregation_dispatch_spec
       { ref := .col "t" "temp", coltype := "float64", numeric := true }
       "potato").2.2.2.2.2 (by decide) (by decide) (by decide)⟩

/-- **C6**: `BETWEEN a AND b` lowers to the backend inclusive range predicate
over the two bound Values (the backend semantics includes both ends), and
`IN (...)`/`NOT IN (...)` lower to backend membership/non-membership checks
against the list with each element unwrapped by `get_value` to its raw value
(a literal element unwraps to its raw constant). -/
theorem between_in_lowering (m lo hi x : Value) (rest tail : List Value)
    (xv lov hiv : PyNum) (k : LitKind) (al : Option String) :
    between (m :: lo :: hi :: tail)
      = some (.valueWithPlan (.between m.val lo.val hi.val) none) ∧
    in_expr (x :: rest)
      = some (.valueWithPlan (.isin x.val (rest.map Value.get_value)) none) ∧
    not_in_expr (x :: rest)
      = some (.valueWithPlan (.notin x.val (rest.map Value.get_value)) none) ∧
    (Value.literal k (.num xv) al).get_value = .num xv ∧
    evalBool (.between (.num xv) (.num lov) (.num hiv))
      = some (decide (lov.toRat ≤ xv.toRat ∧ xv.toRat ≤ hiv.toRat)) := by
  exact ⟨rfl, rfl, rfl, rfl, rfl⟩

/-- **C7**: casting a Column with `AS TYPE` changes only the declared output
type — the name, owning table, backend value and alias of the (same, mutated
in place) Column are unchanged — whereas casting a Literal produces a brand
new typed Literal Value wrapping the backend cast. -/
theorem cast_column_vs_literal (c : ColumnV) (tok ty : String)
    (v : Value) (k : LitKind)
    (hty : to_ibis_type tok = some ty) (hk : TYPE_TO_SQL_TYPE tok = some k) :
    as_type c tok = some { c with typename := some ty } ∧
    (∀ c₂, as_type c tok = some c₂ →
      c₂.name = c.name ∧ c₂.table = c.table ∧ c₂.value = c.value ∧
      c₂.alias_ = c.alias_ ∧ c₂.typename = some ty) ∧
    literal_cast v tok = some (.literal k (.cast v.val ty) none) := by
  refine ⟨?_, ?_, ?_⟩
  · simp [as_type, hty, ColumnV.set_type]
  · intro c₂ h
    simp [as_type, hty, ColumnV.set_type] at h
    subst h
    exact ⟨rfl, rfl, rfl, rfl, rfl⟩
  · simp [literal_cast, hty, hk]

/-- Witness for **C7** at a concrete input: `AS varchar` on a resolved column
retypes it to `string` in place, and on a numeric literal it builds a new
`String`-class literal wrapping the backend cast. -/
theorem cast_column_vs_literal_witness :
    to_ibis_type "varchar" = some "string" ∧
    TYPE_TO_SQL_TYPE "varchar" = some .stringK ∧
    as_type { name := "temp", table := some "t", value := .col "t" "temp" } "varchar"
      = some { name := "temp", table := some "t", value := .col "t" "temp",
               typename := some "string" } ∧
    literal_cast (.literal .number (.num (.int 5)) none) "varchar"
      = some (.literal .stringK (.cast (.num (.int 5)) "string") none) := by
  refine ⟨rfl, rfl, ?_, ?_⟩
  · exact (cast_column_vs_literal
      { name := "temp", table := some "t", value := .col "t" "temp" }
      "varchar" "string" (.literal .number (.num (.int 5)) none) .stringK
      rfl rfl).1
  · exact (cast_column_vs_literal
      { name := "temp", table := some "t", value := .col "t" "temp" }
      "varchar" "string" (.literal .number (.num (.int 5)) none) .stringK
      rfl rfl).2.2

/-- Folding the WHEN/THEN pairs into a case builder appends them in source
order. -/
theorem case_fold_pairs (pairs : List (Value × Value)) (ws : List (Obj × Obj))
    (e : Option Obj) (f : Bool) :
    (pairs.map fun p => WhenItem.pair p.1 p.2).foldl caseStep (.caseBuilder ws e f)
      = .caseBuilder (ws ++ pairs.map fun p => (p.1.get_value, p.2.get_value)) e f := by
  induction pairs generalizing ws with
  | nil => simp
  | cons p ps ih =>
      simp only [List.map_cons, List.foldl_cons, caseStep, Obj.when, ih,
        List.map, List.append_assoc, List.cons_append, List.nil_append]

/-- **C8**: the `(condition, result)` pairs of a CASE expression are folded
into the backend case builder in source order; when an ELSE branch is present
the builder is terminated (`.else_(v).end()`) with that else value; and the
resolved result is a single Expression Value wrapping the built case. -/
theorem case_expression_spec (pairs : List (Value × Value)) (els : Option Value)
    (items : List WhenItem)
    (h : items = (pairs.map fun p => WhenItem.pair p.1 p.2)
          ++ (match els with
              | some v => [WhenItem.other v]
              | none => [])) :
    case_expression items
      = .expr (.caseBuilder (pairs.map fun p => (p.1.get_value, p.2.get_value))
               (els.map Value.get_value) els.isSome) none := by
  subst h
  cases els with
  | none =>
      simp [case_expression, ibisCase, case_fold_pairs]
  | some v =>
      simp [case_expression, ibisCase, List.foldl_append, case_fold_pairs,
        caseStep, Obj.elseBranch, Obj.endCase]

/-- Witness for **C8** at a concrete input: one WHEN/THEN pair followed by an
ELSE folds to a builder holding the pair, the else value and the termination
flag, wrapped in an Expression. -/
theorem case_expression_spec_witness :
    case_expression
      [WhenItem.pair (.expr (.gt (.col "t" "a") (.num (.int 1))) none)
         (.literal .number (.num (.int 10)) none),
       WhenItem.other (.literal .number (.num (.int 20)) none)]
      = .expr (.caseBuilder [(.gt (.col "t" "a") (.num (.int 1)), .num (.int 10))]
               (some (.num (.int 20))) true) none :=
  case_expression_spec
    [((.expr (.gt (.col "t" "a") (.num (.int 1))) none),
      (.literal .number (.num (.int 10)) none))]
    (some (.literal .number (.num (.int 20)) none)) _ rfl

/-- **C9**: column lookup is case-insensitive — the scope map and the
per-table catalog view are consulted at the lower-cased name, while the
backend handle attached to the resolved Column uses the original-case column
name recorded in the catalog view; any two spellings with the same lower-case
form resolve to the same original-case catalog column. -/
theorem column_lookup_case_insensitive (maps : ScopeMaps) (c c₂ : ColumnV)
    (t handle orig : String) (cols : List (String × String))
    (hstar : c.name ≠ "*")
    (h1 : List.lookup (pyLower c.name) maps.column_to_dataframe_name = some (.tbl t))
    (h2 : List.lookup t maps.dataframe_map = some handle)
    (h3 : List.lookup t maps.column_name_map = some cols)
    (h4 : List.lookup (pyLower c.name) cols = some orig)
    (hsp : pyLower c₂.name = pyLower c.name) (hsp2 : c₂.name ≠ "*") :
    set_column_value maps c
      = .ok { c with value := .col handle orig, table := some t } ∧
    set_column_value maps c₂
      = .ok { c₂ with value := .col handle orig, table := some t } := by
  constructor
  · simp [set_column_value, get_table, hstar, h1, h2, h3, h4]
  · simp [set_column_value, get_table, hsp2, hsp, h1, h2, h3, h4]

/-- Witness for **C9** at a concrete input: the catalog records the
original-case column `RH` under the lower-cased key `rh`; both the spellings
`rh` and `RH` resolve to the backend column `RH` of `forest_fires`. -/
theorem column_lookup_case_insensitive_witness :
    set_column_value
      { column_to_dataframe_name := [("rh", .tbl "forest_fires")],
        dataframe_map := [("forest_fires", "forest_fires")],
        column_name_map := [("forest_fires", [("rh", "RH")])] }
      { name := "rh" }
      = .ok { name := "rh", value := .col "forest_fires" "RH",
              table := some "forest_fires" } ∧
    set_column_value
      { column_to_dataframe_name := [("rh", .tbl "forest_fires")],
        dataframe_map := [("forest_fires", "forest_fires")],
        column_name_map := [("forest_fires", [("rh", "RH")])] }
      { name := "RH" }
      = .ok { name := "RH", value := .col "forest_fires" "RH",
              table := some "forest_fires" } :=
  column_lookup_case_insensitive
    { column_to_dataframe_name := [("rh", .tbl "forest_fires")],
      dataframe_map := [("forest_fires", "forest_fires")],
      column_name_map := [("forest_fires", [("rh", "RH")])] }
    { name := "rh" } { name := "RH" } "forest_fires" "forest_fires" "RH"
    [("rh", "RH")] (by decide) rfl rfl rfl rfl (by decide) (by decide)

/-- The scope maps of the two-table join in which both tables carry the bare
column `c`: the catalog marks `c` ambiguous across `t1` and `t2`, and the
query's scope holds both tables. -/
def c2Maps : ScopeMaps :=
  { column_to_dataframe_name := initScope ["t1", "t2"] [("c", .amb ["t1", "t2"])],
    dataframe_map := [("t1", "t1"), ("t2", "t2")],
    column_name_map := [("t1", [("c", "c")]), ("t2", [("c", "c")])] }

/-- **C2** (code bug): with both in-scope tables `t1` and `t2` carrying the
bare column `c` (marked `AmbiguousColumn` in the catalog),
`InternalTransformer.__init__` silently rewrites the ambiguous marker to the
first table in scope, and `set_column_value` then resolves `c` to `t1`
without raising — although the same `set_column_value`, handed the unfiltered
catalog entry, raises `Ambiguous column reference` as the claim demands. -/
theorem ambiguous_column_silently_resolved :
    initScope ["t1", "t2"] [("c", .amb ["t1", "t2"])] = [("c", .tbl "t1")] ∧
    set_column_value c2Maps { name := "c" }
      = .ok { name := "c", table := some "t1", value := .col "t1" "c" } ∧
    set_column_value
      { c2Maps with column_to_dataframe_name := [("c", .amb ["t1", "t2"])] }
      { name := "c" }
      = .error (.ambiguousReference "c") := by
  exact ⟨rfl, rfl, rfl⟩

/-- The order list a window specification should produce: every ORDER BY
entry in source order, with `ibis.desc` wrapped around exactly the entries
tagged descending. -/
def orderSpec (ts : List RankToken) : List Obj :=
  ts.filterMap fun t =>
    match t with
    | .order c ascending => some (if ascending then c.value else .desc c.value)
    | .partition _ => none

/-- The partition list a window specification should produce: the PARTITION BY
columns in source order. -/
def partSpec (ts : List RankToken) : List Obj :=
  ts.filterMap fun t =>
    match t with
    | .partition c => some c.value
    | .order _ _ => none

/-- The undecorated backend value of the first ORDER BY entry — the ranking
target. -/
def firstOrderVal (ts : List RankToken) : Option Obj :=
  ts.findSome? fun t =>
    match t with
    | .order c _ => some c.value
    | .partition _ => none

/-- `keepFirst a b` keeps `a` when set, matching the
`if rank_column is None` update of the ranking target. -/
def keepFirst (a b : Option Obj) : Option Obj :=
  match a with
  | none => b
  | some r => some r

/-- The window-token fold accumulates the order list, the partition list and
the first ORDER BY value from any starting accumulator. -/
theorem rank_fold_spec (ts : List RankToken) (os ps : List Obj) (rc : Option Obj) :
    ts.foldl rankStep (os, ps, rc)
      = (os ++ orderSpec ts, ps ++ partSpec ts, keepFirst rc (firstOrderVal ts)) := by
  induction ts generalizing os ps rc with
  | nil => cases rc <;> simp [orderSpec, partSpec, firstOrderVal, keepFirst]
  | cons t ts ih =>
      cases t with
      | order c ascending =>
          cases rc <;>
            simp [rankStep, orderSpec, partSpec, firstOrderVal, keepFirst, ih]
      | partition c =>
          simp [rankStep, orderSpec, partSpec, firstOrderVal, keepFirst, ih]

/-- **C5**: for a window specification with at least one ORDER BY entry, the
ranking target is the (undecorated) backend value of the *first* ORDER BY
entry; `ibis.desc` is wrapped around exactly the entries tagged descending
(ascending entries are passed unwrapped); both `RANK()` and `DENSE_RANK()`
are applied to that target over `ibis.window(order_by=orders,
group_by=partitions)`; and the partition list is empty exactly when the
specification has no PARTITION BY entry. -/
theorem rank_window_spec (ts : List RankToken) (c0 : Obj)
    (hfirst : firstOrderVal ts = some c0) :
    get_rank_orders_and_partitions [ts]
      = some (orderSpec ts, partSpec ts, some c0) ∧
    rank_expression [ts]
      = some (.expr (.over (.rankOf c0) (orderSpec ts) (partSpec ts)) none) ∧
    dense_rank_expression [ts]
      = some (.expr (.over (.denseRankOf c0) (orderSpec ts) (partSpec ts)) none) ∧
    ((∀ t ∈ ts, t.isPartition = false) → partSpec ts = []) := by
  have hg : get_rank_orders_and_partitions [ts]
      = some (orderSpec ts, partSpec ts, some c0) := by
    simp [get_rank_orders_and_partitions, rank_fold_spec, keepFirst, hfirst]
  refine ⟨hg, ?_, ?_, ?_⟩
  · simp [rank_expression, rank, hg, apply_rank_function]
  · simp [dense_rank_expression, rank, hg, apply_rank_function]
  · intro h
    rw [partSpec, List.filterMap_eq_nil_iff]
    intro t ht
    have := h t ht
    cases t with
    | order c ascending => rfl
    | partition c => simp [RankToken.isPartition] at this

/-- Witness for **C5** at a concrete input:
`OVER (ORDER BY a DESC, b ASC)` (no PARTITION BY) ranks on the undecorated
`a`, wraps `desc` around `a` only, and carries an empty partition list. -/
theorem rank_window_spec_witness :
    firstOrderVal
      [RankToken.order { name := "a", value := .col "t" "a" } false,
       RankToken.order { name := "b", value := .col "t" "b" } true]
      = some (.col "t" "a") ∧
    rank_expression
      [[RankToken.order { name := "a", value := .col "t" "a" } false,
        RankToken.order { name := "b", value := .col "t" "b" } true]]
      = some (.expr (.over (.rankOf (.col "t" "a"))
          [.desc (.col "t" "a"), .col "t" "b"] []) none) ∧
    dense_rank_expression
      [[RankToken.order { name := "a", value := .col "t" "a" } false,
        RankToken.order { name := "b", value := .col "t" "b" } true]]
      = some (.expr (.over (.denseRankOf (.col "t" "a"))
          [.desc (.col "t" "a"), .col "t" "b"] []) none) :=
  ⟨rfl,
   (rank_window_spec
      [RankToken.order { name := "a", value := .col "t" "a" } false,
       RankToken.order { name := "b", value := .col "t" "b" } true]
      (.col "t" "a") rfl).2.1,
   (rank_window_spec
      [RankToken.order { name := "a", value := .col "t" "a" } false,
       RankToken.order { name := "b", value := .col "t" "b" } true]
      (.col "t" "a") rfl).2.2.1⟩

end SqlToIbis
